import Mathlib

/-! Shallow embedding of the conversation session engine of the `database-api`
repository (`src/main.py`, `src/agents/helper.py`, `src/agents/ava.py`).

Python dictionaries (the per-conversation session records and the global
`conversations` map) are embedded as association lists over JSON-like values;
`time.time()` timestamps are embedded as integers (the spec's time-units) and
confidence scores as rationals; the external LLM / HTTP collaborators (OpenAI
completions, the FAQ RAG endpoint, the PostgreSQL writer) are oracle parameters that
carry each call's observable outcome (raised / returned such-and-such text),
so that theorems quantify over every behaviour of the external capability.
-/

/-- JSON-like values, as stored in the Python session dictionaries.  Numbers
are embedded as integers: every quantity the verified properties touch
(`time.time()` timestamps compared against the 120-unit idle threshold, slot
counts) is used only through order comparisons, for which the spec's discrete
"time-units" reading over ℤ is faithful. -/
inductive JVal where
  | jnull
  | jbool (b : Bool)
  | jnum (n : ℤ)
  | jstr (s : String)
  | jarr (l : List JVal)
  | jobj (l : List (String × JVal))

/-- First value bound to `k`, i.e. `d[k]` / `d.get(k)` on a Python dict
(a dict is embedded as an association list: keys unique, insertion ordered,
exactly like a CPython `dict`). -/
def alookup {a : Type} : List (String × a) → String → Option a
  | [], _ => none
  | (k', v) :: rest, k => if k' = k then some v else alookup rest k

/-- Source: `d[k] = v` on a Python dict: replaces the value in place if the key is
present, otherwise appends the new binding at the end. -/
def aset {a : Type} : List (String × a) → String → a → List (String × a)
  | [], k, v => [(k, v)]
  | (k', v') :: rest, k, v =>
      if k' = k then (k', v) :: rest else (k', v') :: aset rest k v

/-- Source: `del d[k]` on a Python dict (removes the binding, keys being unique). -/
def aerase {a : Type} : List (String × a) → String → List (String × a)
  | [], _ => []
  | (k', v) :: rest, k => if k' = k then rest else (k', v) :: aerase rest k

abbrev Data := List (String × JVal)

/-- Source: `d[k]` / `d.get(k)` on a session dict. -/
abbrev lookupKey (d : Data) (k : String) : Option JVal := alookup d k

/-- Source: `k in d` on a Python dict. -/
def hasKey (d : Data) (k : String) : Bool :=
  (lookupKey d k).isSome

/-- Source: `d[k] = v` on a session dict. -/
abbrev setKey (d : Data) (k : String) (v : JVal) : Data := aset d k v

/-- Source: `d.update(u)` on Python dicts: sets every binding of `u`, in order. -/
def dictUpdate (d u : Data) : Data :=
  u.foldl (fun acc p => setKey acc p.1 p.2) d

/-- Source: `d.get(k, default)`. -/
def getD (d : Data) (k : String) (v : JVal) : JVal :=
  (lookupKey d k).getD v

/-- Python truthiness of a JSON value (`if value:`). -/
def truthy : JVal → Bool
  | .jnull => false
  | .jbool b => b
  | .jnum q => q ≠ 0
  | .jstr s => s ≠ ""
  | .jarr l => !l.isEmpty
  | .jobj l => !l.isEmpty

/-- Numeric view of a JSON value, for Python arithmetic/comparisons on
timestamps.  Python `bool` is an `int` subclass, so booleans are numeric;
on any other non-number operand the Python comparison raises `TypeError`,
which the embedding signals with `none`. -/
def asNum : JVal → Option ℤ
  | .jnum n => some n
  | .jbool b => some (if b then 1 else 0)
  | _ => none

/-- The keys of an association list. -/
def akeys {a : Type} (d : List (String × a)) : List String := d.map Prod.fst

/-- Keys of an association list in first-occurrence order with later
duplicates dropped: the key iteration order of a CPython dict built from
those pairs. -/
def firstKeys : List (String × JVal) → List String
  | [] => []
  | (k, _) :: rest => k :: (firstKeys rest).filter (fun s => !(s == k))

/-- One element of the iterable handed to a non-dict `dict.update` (CPython
`PyDict_MergeFromSeq2`): the element must be a sequence of length two, its
first item the key and its second the value.  `none` = the element raises
(`TypeError` for a non-iterable element or an unhashable key, `ValueError`
for a length other than two); `some none` = the element succeeds but
installs a non-string key (`None`, a boolean or a number — hashable, but
invisible to the program, which only ever reads string keys); `some (some
(k, v))` = the element sets the string key `k` to `v`.  A two-character
string splits into its characters; a dict element is iterated over its keys,
so a two-key dict yields its first key as the key and its second key as the
value; a two-element list with a list or dict first item raises `TypeError`
(unhashable key). -/
def updPair : JVal → Option (Option (String × JVal))
  | .jstr s =>
      match s.data with
      | [c0, c1] => some (some (String.mk [c0], .jstr (String.mk [c1])))
      | _ => none
  | .jarr [k, v] =>
      match k with
      | .jstr ks => some (some (ks, v))
      | .jarr _ => none
      | .jobj _ => none
      | _ => some none
  | .jarr _ => none
  | .jobj kvs =>
      match firstKeys kvs with
      | [k0, k1] => some (some (k0, .jstr k1))
      | _ => none
  | _ => none

/-- The pair-sequence path of `dict.update`, element by element, left to
right; the error value carries the partially merged dictionary, because each
pair is installed in place before the next element is examined. -/
def updSeq (d : Data) : List JVal → Except Data Data
  | [] => .ok d
  | e :: rest =>
      match updPair e with
      | none => .error d
      | some none => updSeq d rest
      | some (some (k, v)) => updSeq (setKey d k v) rest

/-- The dictionary a (possibly raising) in-place update leaves behind. -/
def updOut : Except Data Data → Data
  | .ok d => d
  | .error d => d

/-- Source: `d.update(v)` for an arbitrary value `v`, with CPython semantics: a
dict argument merges key by key and never raises; any other argument is
treated as an iterable of key/value pairs (`PyDict_MergeFromSeq2`) — a list
element by element via `updPair`, a string of its characters (each a
length-1 string, so every non-empty string raises `ValueError` at its first
element before merging anything, and the empty string is a successful
no-op); `None`, a boolean or a number raises `TypeError` at once.  The error
value carries the dictionary as mutated before the raise. -/
def dictUpdateJ (d : Data) : JVal → Except Data Data
  | .jobj kvs => .ok (dictUpdate d kvs)
  | .jarr elems => updSeq d elems
  | .jstr s => if s.data.isEmpty then .ok d else .error d
  | _ => .error d

/-- The string keys the pair-sequence path installs before (possibly)
raising: contributions of the elements up to the first raising one. -/
def updKeysSeq : List JVal → List String
  | [] => []
  | e :: rest =>
      match updPair e with
      | none => []
      | some none => updKeysSeq rest
      | some (some (k, _)) => k :: updKeysSeq rest

/-- The string keys a `dict.update` payload installs (before raising, if it
raises): the keys of a dict argument, the element contributions of a pair
sequence, and nothing for the immediately-raising or no-op shapes. -/
def updKeys : JVal → List String
  | .jobj kvs => akeys kvs
  | .jarr elems => updKeysSeq elems
  | _ => []

/-- The global store `conversations : dict[str, dict]`. -/
abbrev Store := List (String × Data)

/-- Source: `conversations.get(cid)` (first match). -/
abbrev lookupStore (st : Store) (cid : String) : Option Data := alookup st cid

/-- Source: `conversations[cid] = d`. -/
abbrev setStore (st : Store) (cid : String) (d : Data) : Store := aset st cid d

/-- Source: `del conversations[cid]`. -/
abbrev eraseStore (st : Store) (cid : String) : Store := aerase st cid

/-! String helpers (Python `str.lower`, `in`, `strip`, `len`) -/

/-- Python `str.lower()` (the source only lowercases ASCII copy). -/
def lowerStr (s : String) : String :=
  String.mk (s.data.map Char.toLower)

/-- Python `str.strip()`: drop leading and trailing whitespace. -/
def stripStr (s : String) : String :=
  String.mk (((s.data.dropWhile Char.isWhitespace).reverse.dropWhile Char.isWhitespace).reverse)

/-- Is `p` a prefix of `s` (on character lists)? -/
def isPrefB : List Char → List Char → Bool
  | [], _ => true
  | _ :: _, [] => false
  | a :: as, b :: bs => a = b && isPrefB as bs

/-- Is `p` a contiguous sublist of `s`? -/
def isSubB : List Char → List Char → Bool
  | p, [] => isPrefB p []
  | p, s@(_ :: rest) => isPrefB p s || isSubB p rest

/-- Python `needle in hay` on strings: contiguous substring test. -/
def containsSub (needle hay : String) : Bool :=
  isSubB needle.toList hay.toList

/-- An apostrophe, spelled via its code point. -/
def apos : String := String.singleton (Char.ofNat 39)

/-! Fallback detection (`src/main.py` lines 83-125) -/

/-- Source: `FALLBACK_PATTERNS` from `src/main.py`.  Every pattern is a literal
(no regex metacharacters), so `re.search(pattern, s)` is a substring test. -/
def FALLBACK_PATTERNS : List String :=
  [ "i don" ++ apos ++ "t understand"
  , "i" ++ apos ++ "m not sure"
  , "could you clarify"
  , "what do you mean"
  , "can you explain"
  , "i don" ++ apos ++ "t know"
  , "let me check with"
  , "i need to ask"
  , "that" ++ apos ++ "s beyond my"
  , "i cannot help with" ]

/-- Source: `FALLBACK_RESPONSE` from `src/main.py`. -/
def FALLBACK_RESPONSE : String :=
  "We are connecting you to the manager now. Could you please enter your email address or phone number below? They will reach out ASAP."

/-- The `for pattern in FALLBACK_PATTERNS: if re.search(...)` loop. -/
def patternLoop : List String → String → Bool
  | [], _ => false
  | p :: rest, rl => if containsSub p rl then true else patternLoop rest rl

/-- Source: `detect_fallback(ai_response, confidence_score)` from `src/main.py`
(`response_lower = ai_response.lower()` is inlined). -/
def detect_fallback (ai_response : String) (confidence_score : Option ℚ) : Bool :=
  if (match confidence_score with
      | some c => decide (c < 7/10)
      | none => false) then true
  else if patternLoop FALLBACK_PATTERNS (lowerStr ai_response) then true
  else if (stripStr ai_response).data.length < 20 then true
  else false

/-! Trigger variables (`src/main.py` lines 56-106) -/

def all_variables : List String :=
  [ "Full_name", "Bedroom_size", "Calendar", "User_action", "Faq", "YES/NO"
  , "Incentive", "Price_range", "Work_place", "Occupancy", "Pet", "Features"
  , "Tour", "Save_25", "Save_50" ]

def specific_triggers : List (String × List String) :=
  [ ("Full_name", ["Full Name"])
  , ("Bedroom_size", ["bedroom size"])
  , ("Calendar", ["move-in date"])
  , ("User_action", ["next action"])
  , ("Faq", ["top questions"])
  , ("Incentive", ["$ off", "save $"])
  , ("Price_range", ["price range"])
  , ("Work_place", ["work place"])
  , ("Occupancy", ["how many people (occupants)"])
  , ("Pet", ["(pets) with you"])
  , ("Features", ["special features"])
  , ("Tour", ["in-person tour", "self-guided tour", "virtual tour"])
  , ("Save_25", ["$25, save"])
  , ("Save_50", ["$50, save"]) ]

def yes_no_triggers : List String :=
  [ "Is...?", "Are...?", "Can...?", "Could...?", "Will...?", "Would...?"
  , "Shall...?", "Should...?", "May...?", "Might...?", "Have...?", "Has...?"
  , "Had...?" ]

/-- The first `for var, keywords in specific_triggers.items()` loop. -/
def firstTrigger : List (String × List String) → String → Option String
  | [], _ => none
  | (v, kws) :: rest, rl =>
      if kws.any (fun k => containsSub (lowerStr k) rl) then some v
      else firstTrigger rest rl

/-- The second `for keyword in yes_no_triggers` loop. -/
def firstYesNo : List String → String → Option String
  | [], _ => none
  | k :: rest, rl =>
      if containsSub (lowerStr k) rl then some "YES/NO" else firstYesNo rest rl

/-- Source: `get_triggered_variable(response)` from `src/main.py`. -/
def get_triggered_variable (response : String) : Option String :=
  let response_lower := lowerStr response
  match firstTrigger specific_triggers response_lower with
  | some v => some v
  | none => firstYesNo yes_no_triggers response_lower

/-! Spec-side reference classifiers (written from the spec's words,
for the refinement claims C7 / C8) -/

/-- The fallback rule of spec §4.3 as an ordered disjunction: (a) confidence
below 0.7, else (b) a hand-off phrasing occurs case-insensitively, else
(c) the trimmed reply is shorter than 20 characters. -/
def is_fallback_spec (reply : String) (confidence : Option ℚ) : Bool :=
  (confidence.elim false (fun c => decide (c < 7/10)))
  || FALLBACK_PATTERNS.any (fun p => containsSub p (lowerStr reply))
  || decide ((stripStr reply).data.length < 20)

/-- The trigger-resolution policy of spec §4.4, amended to what the source
does: the first specific trigger (in list priority order) whose keyword is a
case-insensitive substring wins; only if none matches, the generic yes/no
variable is returned when one of the literal `yes_no_triggers` strings occurs
as a case-insensitive substring. -/
def resolve_spec (response : String) : Option String :=
  let rl := lowerStr response
  match specific_triggers.find? (fun p => p.2.any (fun k => containsSub (lowerStr k) rl)) with
  | some p => some p.1
  | none =>
      if yes_no_triggers.any (fun k => containsSub (lowerStr k) rl) then some "YES/NO"
      else none

/-! Helper agent (`src/agents/helper.py`): slot extraction

The OpenAI call is an external capability; its observable outcome (raised, or
a message with tool calls and text content) is an oracle parameter.  String
payloads produced by the LLM are carried already classified by what
`json.loads` does to them, since quantifying over those outcomes is
quantifying over the raw strings. -/

/-- One entry of `msg.tool_calls`: the function name, the result of
`json.loads(call.function.arguments)` (`none` = `JSONDecodeError`), and
whether the external `write_lead_record` call raises when reached.  The
writer (`src/tools/db_tool.py`) never inspects its argument — its body
executes a fixed SQL statement — so whether it raises is purely the database
call's behaviour, independent of the record's shape. -/
structure ToolCall where
  name : String
  args : Option JVal
  writeRaises : Bool

/-- The outcome of `msg.content` in helper's CASE B, classified by what the
source does with it: `absent` = `None` or `""` (falsy); `parsed v` =
`json.loads(content)` succeeds with `v`; `unparsable rx` = `json.loads`
raises and the `\x7b[^\x7b\x7d]*\x7d` regex then either finds a substring
that parses to the object `rx = some kvs` (a regex hit always parses to a
dict when it parses at all) or yields nothing usable (`rx = none`: no match,
or a match that fails to parse). -/
inductive ContentB where
  | absent
  | parsed (v : JVal)
  | unparsable (rx : Option (List (String × JVal)))

/-- The outcome of the helper's `client.chat.completions.create` call. -/
inductive HelperMsg where
  | apiFail
  | msg (tool_calls : List ToolCall) (content : ContentB)

/-- What `process_turn` in `src/agents/helper.py` gives back to `main.py`:
a `(current_data, done)` pair, the implicit `None` when control falls off
the end of the function, or an uncaught exception.  Every constructor
carries the data as mutated so far, because `current_data` is the very dict
stored in the global map and all `update` mutations on it — including the
partial ones of an update that then raises — persist. -/
inductive HRet where
  | retPair (d : Data) (done : Bool)
  | retNone (d : Data)
  | raised (d : Data)

/-- The data an extractor turn leaves behind, on every return path. -/
def HRet.data : HRet → Data
  | .retPair d _ => d
  | .retNone d => d
  | .raised d => d

def expected_fields : List String := ["prospect_name", "desired_bedrooms", "move_in_date"]

/-- Source: `"record" in args` under Python semantics: key containment on a dict,
membership on a list, substring on a string; a `TypeError` (numbers,
booleans, `null`) is caught by the enclosing `except` and the loop continues,
which the caller below treats like `false` here followed by no record. -/
def recordKeyIn : JVal → Bool
  | .jobj kvs => hasKey kvs "record"
  | .jarr l => l.any (fun v => match v with | .jstr s => s = "record" | _ => false)
  | .jstr s => containsSub "record" s
  | _ => false

/-- The `record_data` selection of helper CASE A: `args["record"]` when the
key is present, else the args themselves when they are a non-empty dict
containing an expected lead field, else the first dict value containing an
expected lead field; `none` means the branch `continue`s (including every
path on which Python raises a caught `TypeError`). -/
def recordOf (v : JVal) : Option JVal :=
  if recordKeyIn v then
    match v with
    | .jobj kvs => lookupKey kvs "record"
    | _ => none
  else
    match v with
    | .jobj kvs =>
        if kvs.isEmpty then none
        else if expected_fields.any (fun f => hasKey kvs f) then some (.jobj kvs)
        else (kvs.find? (fun p => match p.2 with
                | .jobj inner => expected_fields.any (fun f => hasKey inner f)
                | _ => false)).map Prod.snd
    | _ => none

/-- One iteration of helper CASE A's `for call in msg.tool_calls` loop:
`Sum.inr (data, true)` when this call reaches the `return current_data,
True`; `Sum.inl data` when the loop `continue`s past it (wrong tool name,
unparsable arguments, unusable record shape, or any raised-and-caught
exception — a failing `write_lead_record` DB call, or
`current_data.update(record_data)` raising partway).  The continue value
carries the data because a partially raising update has already merged its
earlier pairs in place; note that a record that is a pair sequence does
merge and return `(data, True)` (the writer ignores its argument, and
`dict.update` accepts any iterable of two-element sequences). -/
def tryToolCall (current : Data) (c : ToolCall) : Data ⊕ (Data × Bool) :=
  if c.name ≠ "write_lead_record" then .inl current
  else match c.args with
    | none => .inl current
    | some v =>
        match recordOf v with
        | none => .inl current
        | some rd =>
            if c.writeRaises then .inl current
            else match dictUpdateJ current rd with
              | .ok d2 => .inr (d2, true)
              | .error d2 => .inl d2

/-- The `for call in msg.tool_calls` loop of helper CASE A: stop at the
first call that returns, otherwise continue with the (possibly mutated)
data. -/
def toolCallLoop (current : Data) : List ToolCall → Data ⊕ (Data × Bool)
  | [] => .inl current
  | c :: rest =>
      match tryToolCall current c with
      | .inl d2 => toolCallLoop d2 rest
      | .inr r => .inr r

/-- The data either outcome of a CASE A step leaves behind. -/
def tcOut : Data ⊕ (Data × Bool) → Data
  | .inl d => d
  | .inr p => p.1

/-- Helper CASE B: `msg.content` handling.  The `current_data.update(updated)`
call on the parsed content sits outside every handler, so with CPython
`dict.update` semantics a non-mergeable parsed value raises out of
`process_turn`, leaving behind whatever the update merged before raising,
while a mergeable non-dict value (a sequence of pairs, an empty string)
merges and returns `(current_data, False)` like a dict does. -/
def helperCaseB (current : Data) : ContentB → HRet
  | .absent => .retNone current
  | .parsed v =>
      match dictUpdateJ current v with
      | .ok d2 => .retPair d2 false
      | .error d2 => .raised d2
  | .unparsable rx =>
      match rx with
      | some kvs => .retPair (dictUpdate current kvs) false
      | none => .retPair current false

/-- Source: `process_turn` from `src/agents/helper.py`: the OpenAI failure guard,
then CASE A (tool calls, first usable `write_lead_record` call returning
`(data, True)`), then CASE B (text content) on the data CASE A left
behind. -/
def helper_process_turn (m : HelperMsg) (current_data : Data) : HRet :=
  match m with
  | .apiFail => .retPair current_data false
  | .msg tool_calls content =>
      match toolCallLoop current_data tool_calls with
      | .inr (d, done) => .retPair d done
      | .inl d2 => helperCaseB d2 content

/-! Ava agent (`src/agents/ava.py`): dialogue generation -/

/-- Minimal `json.dumps` for the values the dump is applied to, mirroring
Python's default separators; only `"` and `\` are escaped (the source never
feeds control characters back through this path, and no verified property
inspects the dumped text). -/
def jquote (s : String) : String :=
  "\"" ++ String.mk (s.data.foldr
      (fun c acc => if c = '"' || c = '\\' then '\\' :: c :: acc else c :: acc) []) ++ "\""

mutual
def jdump : JVal → String
  | .jnull => "null"
  | .jbool b => if b then "true" else "false"
  | .jnum n => toString n
  | .jstr s => jquote s
  | .jarr l => "[" ++ jdumpArr l ++ "]"
  | .jobj l => "\x7b" ++ jdumpObjInner l ++ "\x7d"

def jdumpArr : List JVal → String
  | [] => ""
  | [v] => jdump v
  | v :: rest => jdump v ++ ", " ++ jdumpArr rest

def jdumpObjInner : List (String × JVal) → String
  | [] => ""
  | [(k, v)] => jquote k ++ ": " ++ jdump v
  | (k, v) :: rest => jquote k ++ ": " ++ jdump v ++ ", " ++ jdumpObjInner rest
end

/-- Outcome of Ava's `client.chat.completions.create` call, with the message
content classified by the branch the source takes on it: `absent` =
`msg.content` falsy (returns `""`); `plain s` = truthy content that does not
start with `"\x7b"` after stripping (returned as is); `braced s kvs` =
content starting with `"\x7b"` whose `_safe_load_json` is the dict `kvs`
(returns `json.dumps(kvs)` when non-empty, else the content itself);
`bracedBad s` = content starting with `"\x7b"` on which `_safe_load_json`
fails (returns the content itself). -/
inductive AvaOutcome where
  | araise
  | absent
  | plain (s : String)
  | braced (s : String) (kvs : List (String × JVal))
  | bracedBad (s : String)

/-- Source: `process_turn` from `src/agents/ava.py`.  `user_message` and
`helper_data` are only serialized into the prompt of the external call (their
influence is absorbed into the call's outcome `o`); the function never
mutates `helper_data`.  On the FAQ branch the reply is the external
`lookup_faq` answer (which itself never raises: it catches all exceptions
and returns an apology string); otherwise the dialogue LLM call's outcome
decides: an exception propagates uncaught (`Except.error`). -/
def ava_process_turn (user_message : String) (helper_data : Data) (faq : Bool)
    (faqAnswer : String) (o : AvaOutcome) : Except Unit String :=
  if faq then Except.ok faqAnswer
  else match o with
    | .araise => Except.error ()
    | .absent => Except.ok ""
    | .plain s => Except.ok s
    | .braced s kvs => if kvs.isEmpty then Except.ok s else Except.ok (jdump (.jobj kvs))
    | .bracedBad s => Except.ok s

/-! Summary finalizer and inactivity sweep (`src/main.py` lines 158-317) -/

/-- Source: `generate_ai_intent_summary(history)`: empty history short-circuits to a
fixed string; otherwise the external completion call either returns a summary
(`intentRes = some s`, the source strips that text) or raises, in which case
the source catches and substitutes `"Summary generation failed."`. -/
def generate_ai_intent_summary (history : JVal) (intentRes : Option String) : String :=
  if !truthy history then "No conversation history available."
  else intentRes.getD "Summary generation failed."

/-- Outcome of the structured-summary completion call in
`generate_and_send_summary`: `fail` = the call raised (network error, the
30-unit timeout) or its text failed `json.loads`; `parsed v` = the text
parsed to `v`. -/
inductive StructOutcome where
  | fail
  | parsed (v : JVal)

/-- The placeholder `summary_data` built in the `except` branch when the
structured call fails. -/
def failedSummaryData : JVal :=
  .jobj [ ("summary", .jstr "Conversation completed (AI summary failed)")
        , ("book_tour", .jstr "Unknown")
        , ("qualified", .jstr "Unknown")
        , ("incentives_accepted", .jarr []) ]

/-- Source: `summary_data` after the inner try/except. -/
def summaryDataOf : StructOutcome → JVal
  | .fail => failedSummaryData
  | .parsed v => v

/-- Source: `summary_data[k]`: indexing a parsed JSON value with a string key; on a
non-dict or a missing key Python raises (`TypeError` / `KeyError`), caught by
the outer `except` of `generate_and_send_summary`, signalled here by `none`. -/
def jIndex : JVal → String → Option JVal
  | .jobj kvs, k => lookupKey kvs k
  | _, _ => none

/-- Source: `summary_data["qualified"] == "Yes"` (Python `==` between a JSON value
and a string). -/
def eqYes : JVal → Bool
  | .jstr s => s = "Yes"
  | _ => false

/-- All oracle outcomes one finalization consumes: the intent-summary call,
the structured call, the `datetime.now().isoformat()` string, and the
`time.time()` at which the summary is stored. -/
structure FinalizeOracles where
  intentRes : Option String
  struct : StructOutcome
  ts : String
  storeTime : ℤ

/-- Source: `generate_and_send_summary(conversation_id)` from `src/main.py`:
missing conversation returns; falsy history deletes the conversation and
returns; otherwise the summary record is assembled and stored on the session
together with `summary_generated = True` and `summary_generated_at`, unless
indexing the parsed summary raises, in which case the outer `except` deletes
the conversation. -/
def generate_and_send_summary (o : FinalizeOracles) (store : Store) (conversation_id : String) :
    Store :=
  match lookupStore store conversation_id with
  | none => store
  | some data =>
      let history := getD data "history" (.jarr [])
      if !truthy history then eraseStore store conversation_id
      else
        let ai_intent_summary := generate_ai_intent_summary history o.intentRes
        let sd := summaryDataOf o.struct
        match jIndex sd "summary", jIndex sd "book_tour", jIndex sd "qualified",
            jIndex sd "incentives_accepted" with
        | some su, some bt, some q, some inc =>
            let api_response : JVal := .jobj
              [ ("conversation_id", .jstr conversation_id)
              , ("summary", su)
              , ("book_tour", bt)
              , ("qualified", q)
              , ("incentives_accepted", inc)
              , ("ai_intent_summary", .jstr ai_intent_summary)
              , ("is_qualified", .jbool (eqYes q))
              , ("source", .jstr "LLM")
              , ("timestamp", .jstr o.ts)
              , ("full_data", .jobj data) ]
            setStore store conversation_id
              (setKey (setKey (setKey data "final_summary" api_response)
                "summary_generated" (.jbool true))
                "summary_generated_at" (.jnum o.storeTime))
        | _, _, _, _ => eraseStore store conversation_id

/-- The response envelope of the `/chat` endpoint (`ChatResponse`). -/
structure ChatResp where
  reply : String
  data : Data
  varsMap : List (String × Bool)
  is_qualified : Bool
  ai_intent_summary : Option String
  fallback : Bool
  kb_pending : Option String

/-- Result of one `/chat` request: a response plus the updated store, or an
uncaught exception escaping to the HTTP layer with the store as mutated so
far. -/
inductive TurnOutcome where
  | ok (store : Store) (resp : ChatResp)
  | err (store : Store)

/-- Is the outcome an uncaught exception? -/
def TurnOutcome.isErr : TurnOutcome → Bool
  | .ok _ _ => false
  | .err _ => true

/-- The store an outcome leaves behind. -/
def TurnOutcome.store : TurnOutcome → Store
  | .ok st _ => st
  | .err st => st

/-- Source: `data["history"][-1]["ava"] = reply`: attach the reply to the open turn
record; `none` renders the paths on which the Python subscripts raise (no
list, empty list, non-dict last element) — unreachable after the append. -/
def attachAva (d : Data) (reply : String) : Option Data :=
  match lookupKey d "history" with
  | some (.jarr l) =>
      match l.getLast? with
      | some (.jobj kvs) =>
          some (setKey d "history" (.jarr (l.dropLast ++ [.jobj (setKey kvs "ava" (.jstr reply))])))
      | _ => none
  | _ => none

/-- Source: `if data.get("summary_generated", False) and data.get("summary_generated_at", 0)
< data["last_activity_time"]: data["summary_generated"] = False` —
`data["last_activity_time"]` is `t`, just assigned.  `none` renders the
Python `TypeError` when a truthy flag meets a non-numeric
`summary_generated_at`. -/
def resetSummaryFlag (t : ℤ) (data1 : Data) : Option Data :=
  if truthy (getD data1 "summary_generated" (.jbool false)) then
    match asNum (getD data1 "summary_generated_at" (.jnum 0)) with
    | none => none
    | some sga =>
        some (if sga < t then setKey data1 "summary_generated" (.jbool false) else data1)
  else some data1

/-- Source: `if "history" not in data: data["history"] = []`. -/
def ensureHistory (d : Data) : Data :=
  if hasKey d "history" then d else setKey d "history" (.jarr [])

/-- Source: `data["history"].append({"user": req.user_message})` after the
`ensureHistory` guard; `none` renders the `AttributeError` raised when a
merge has replaced `history` with a non-list. -/
def appendUserTurn (user_message : String) (d : Data) : Option Data :=
  match lookupKey (ensureHistory d) "history" with
  | some (.jarr l) =>
      some (setKey (ensureHistory d) "history"
        (.jarr (l ++ [.jobj [("user", .jstr user_message)]])))
  | _ => none

/-- The `if done:` branch of `chat`: all variables false, terminal intent
summary, no dialogue call. -/
def doneResponse (conversation_id : String) (store : Store) (data5 : Data)
    (intentRes : Option String) : TurnOutcome :=
  .ok (setStore store conversation_id data5)
    { reply := ""
    , data := data5
    , varsMap := all_variables.map (fun v => (v, false))
    , is_qualified := truthy (getD data5 "pq_completed" (.jbool false))
    , ai_intent_summary :=
        some (generate_ai_intent_summary (getD data5 "history" (.jarr [])) intentRes)
    , fallback := false
    , kb_pending := none }

/-- The dialogue half of `chat`: invoke Ava, classify fallback, substitute
the hand-off reply, resolve the trigger variable, attach the reply to the
open turn record and set the fallback flags. -/
def responderPhase (conversation_id user_message : String) (is_faq : Bool) (faqAnswer : String)
    (avaO : AvaOutcome) (store : Store) (data5 : Data) : TurnOutcome :=
  match ava_process_turn user_message data5 is_faq faqAnswer avaO with
  | .error _ => .err (setStore store conversation_id data5)
  | .ok reply0 =>
      let is_fallback := detect_fallback reply0 none
      let reply := if is_fallback then FALLBACK_RESPONSE else reply0
      let kb_pending : Option String := if is_fallback then some user_message else none
      let triggered_var := get_triggered_variable reply
      let varsMap := all_variables.map (fun v => (v, decide (triggered_var = some v)))
      match attachAva data5 reply with
      | none => .err (setStore store conversation_id data5)
      | some data6 =>
          let data7 :=
            if is_fallback then
              setKey (setKey data6 "fallback_triggered" (.jbool true))
                "kb_pending" (.jstr user_message)
            else data6
          .ok (setStore store conversation_id data7)
            { reply := reply
            , data := data7
            , varsMap := varsMap
            , is_qualified := truthy (getD data7 "pq_completed" (.jbool false))
            , ai_intent_summary := none
            , fallback := is_fallback
            , kb_pending := kb_pending }

/-- The continuation of a `/chat` turn after the activity-time/summary-flag
block: slot extraction, history append, then either the terminal branch or
the dialogue branch. -/
def chatCont (conversation_id user_message : String) (hm : HelperMsg) (is_faq : Bool)
    (faqAnswer : String) (avaO : AvaOutcome) (intentRes : Option String) (store : Store)
    (data2 : Data) : TurnOutcome :=
  match helper_process_turn hm data2 with
  | .retNone d3 => .err (setStore store conversation_id d3)
  | .raised d3 => .err (setStore store conversation_id d3)
  | .retPair data3 done =>
      match appendUserTurn user_message data3 with
      | none => .err (setStore store conversation_id (ensureHistory data3))
      | some data5 =>
          if done then doneResponse conversation_id store data5 intentRes
          else responderPhase conversation_id user_message is_faq faqAnswer avaO store data5

/-- The `chat` endpoint of `src/main.py`.  External-capability outcomes are
parameters: `hm` the slot-extractor LLM message, `is_faq` the FAQ
classifier's verdict, `faqAnswer` the RAG answer, `avaO` the dialogue LLM
outcome, `intentRes` the intent-summary call's outcome.  `end_signal` and
`turn_id` influence only the text sent to the extractor LLM, hence are
absorbed into `hm`. -/
def chat (conversation_id user_message : String) (t : ℤ) (hm : HelperMsg) (is_faq : Bool)
    (faqAnswer : String) (avaO : AvaOutcome) (intentRes : Option String) (store : Store) :
    TurnOutcome :=
  let data0 := (lookupStore store conversation_id).getD []
  let data1 := setKey data0 "last_activity_time" (.jnum t)
  match resetSummaryFlag t data1 with
  | none => .err (setStore store conversation_id data1)
  | some data2 =>
      chatCont conversation_id user_message hm is_faq faqAnswer avaO intentRes store data2

/-! The `/chat/stream` turn pipeline (`src/main.py` lines 485-675)

The streaming endpoint runs the same locked turn-start block (activity time,
summary-flag reset, extractor merge, history append) and then streams the
dialogue reply; the session mutations of its generator are embedded
sequentially, since no verified property observes the chunk interleaving. -/

/-- Outcome of the dialogue LLM stream of `/chat/stream`: either the
`client.chat.completions.create(stream=True)` call or the chunk iteration
raises before the stream completes (no session mutation happens before the
loop finishes), or the concatenated chunk text is `full_response`. -/
inductive StreamLLM where
  | sraise
  | streamed (full_response : String)

/-- The frames of one `/chat/stream` response that the verified properties
observe: the terminal branch emits a fixed session-ended frame; the dialogue
branches emit the completed reply together with the fallback fields of the
closing frame. -/
inductive StreamResp where
  | sessionEnded (ai_intent_summary : String)
  | replied (completed_reply : String) (fallback : Bool) (kb_pending : Option String)

/-- Result of one `/chat/stream` request: the response frames plus the
updated store, or an uncaught exception with the store as mutated so far. -/
inductive StreamTurn where
  | ok (store : Store) (resp : StreamResp)
  | err (store : Store)

/-- The store a streaming outcome leaves behind. -/
def StreamTurn.store : StreamTurn → Store
  | .ok st _ => st
  | .err st => st

/-- The FAQ branch of `chat_stream`: the RAG answer (which never raises) goes
through fallback classification and substitution and the fallback flags are
set on the session; the reply is not attached to the history and
`pq_completed` is not set on this branch. -/
def streamFaqPhase (conversation_id user_message faqAnswer : String)
    (store : Store) (data5 : Data) : StreamTurn :=
  let is_fallback := detect_fallback faqAnswer none
  let reply := if is_fallback then FALLBACK_RESPONSE else faqAnswer
  let kb_pending : Option String := if is_fallback then some user_message else none
  let data6 :=
    if is_fallback then
      setKey (setKey data5 "fallback_triggered" (.jbool true))
        "kb_pending" (.jstr user_message)
    else data5
  .ok (setStore store conversation_id data6) (.replied reply is_fallback kb_pending)

/-- The last steps of the streaming generator, after fallback classification
and flag setting have produced `data6`: mark `pq_completed` when the
(already substituted) reply announces prequalification, then attach the
reply to the open turn record and emit the closing frame. -/
def streamTail (conversation_id full_response : String) (fb : Bool) (kbp : Option String)
    (store : Store) (data6 : Data) : StreamTurn :=
  let data7 :=
    if containsSub "ve been pre-qualified" (lowerStr full_response) then
      setKey data6 "pq_completed" (.jbool true)
    else data6
  match attachAva data7 full_response with
  | none => .err (setStore store conversation_id data7)
  | some data8 =>
      .ok (setStore store conversation_id data8) (.replied full_response fb kbp)

/-- The non-FAQ streaming tail of `chat_stream`: the generator accumulates
the streamed reply, classifies fallback on the accumulated text, substitutes
the hand-off message and sets the fallback flags, then runs the remaining
steps (`streamTail`). -/
def streamResponderPhase (conversation_id user_message : String) (so : StreamLLM)
    (store : Store) (data5 : Data) : StreamTurn :=
  match so with
  | .sraise => .err (setStore store conversation_id data5)
  | .streamed full0 =>
      let is_fallback := detect_fallback full0 none
      let full_response := if is_fallback then FALLBACK_RESPONSE else full0
      let kb_pending : Option String := if is_fallback then some user_message else none
      let data6 :=
        if is_fallback then
          setKey (setKey data5 "fallback_triggered" (.jbool true))
            "kb_pending" (.jstr user_message)
        else data5
      streamTail conversation_id full_response is_fallback kb_pending store data6

/-- The continuation of a `/chat/stream` turn after the activity-time and
summary-flag block: slot extraction, history append, then the terminal, FAQ
or streaming-dialogue branch. -/
def streamCont (conversation_id user_message : String) (hm : HelperMsg) (is_faq : Bool)
    (faqAnswer : String) (so : StreamLLM) (intentRes : Option String) (store : Store)
    (data2 : Data) : StreamTurn :=
  match helper_process_turn hm data2 with
  | .retNone d3 => .err (setStore store conversation_id d3)
  | .raised d3 => .err (setStore store conversation_id d3)
  | .retPair data3 done =>
      match appendUserTurn user_message data3 with
      | none => .err (setStore store conversation_id (ensureHistory data3))
      | some data5 =>
          if done then
            .ok (setStore store conversation_id data5)
              (.sessionEnded
                (generate_ai_intent_summary (getD data5 "history" (.jarr [])) intentRes))
          else if is_faq then
            streamFaqPhase conversation_id user_message faqAnswer store data5
          else streamResponderPhase conversation_id user_message so store data5

/-- The `chat_stream` endpoint of `src/main.py` (`/chat/stream`).  Its locked
turn-start block is the same code as `chat`'s; the analytics and
prequalification tracking calls touch no session state and are absorbed. -/
def chat_stream (conversation_id user_message : String) (t : ℤ) (hm : HelperMsg)
    (is_faq : Bool) (faqAnswer : String) (so : StreamLLM) (intentRes : Option String)
    (store : Store) : StreamTurn :=
  let data0 := (lookupStore store conversation_id).getD []
  let data1 := setKey data0 "last_activity_time" (.jnum t)
  match resetSummaryFlag t data1 with
  | none => .err (setStore store conversation_id data1)
  | some data2 =>
      streamCont conversation_id user_message hm is_faq faqAnswer so intentRes store data2

/-- Does the CASE B content avoid merging the key `k`?  Judged through
`updKeys`, so dict payloads, pair-sequence payloads and the pair-splitting
string and dict element forms are all accounted for; the raise-without-merge
and regex-miss paths merge nothing. -/
def contentAvoidsKey : ContentB → String → Bool
  | .absent, _ => true
  | .parsed v, k => !decide (k ∈ updKeys v)
  | .unparsable (some kvs), k => !hasKey kvs k
  | .unparsable none, _ => true

/-- Does this tool call avoid merging the key `k` on every path?  The
record's update keys are judged through `updKeys`, covering pair-sequence
records as well as dict records. -/
def callAvoidsKey (c : ToolCall) (k : String) : Bool :=
  match c.args with
  | none => true
  | some v =>
      match recordOf v with
      | some rd => !decide (k ∈ updKeys rd)
      | none => true

/-- Does the whole extractor message avoid merging the key `k`? -/
def msgAvoidsKey (m : HelperMsg) (k : String) : Bool :=
  match m with
  | .apiFail => true
  | .msg tool_calls content =>
      tool_calls.all (fun c => callAvoidsKey c k) && contentAvoidsKey content k

/-- The extractor message supplies none of the session status keys that the
activity/summary bookkeeping owns.  (An extractor honouring the §6 boundary
contract — returning slot fields — always satisfies this.) -/
def msgAvoidsFlags (m : HelperMsg) : Bool :=
  msgAvoidsKey m "summary_generated" && msgAvoidsKey m "summary_generated_at"
    && msgAvoidsKey m "last_activity_time"

/-! Association-list lemmas (Python dict laws) -/

theorem alookup_aset_self {a : Type} (d : List (String × a)) (k : String) (v : a) :
    alookup (aset d k v) k = some v := by
  induction d with
  | nil => simp [aset, alookup]
  | cons p rest ih =>
      rcases p with ⟨k', v'⟩
      by_cases h : k' = k
      · subst h; simp [aset, alookup]
      · simp [aset, alookup, h, ih]

theorem alookup_aset_ne {a : Type} (d : List (String × a)) {k' k : String} (h : k' ≠ k)
    (v : a) : alookup (aset d k' v) k = alookup d k := by
  induction d with
  | nil => simp [aset, alookup, h]
  | cons p rest ih =>
      rcases p with ⟨k0, v0⟩
      by_cases h0 : k0 = k'
      · subst h0; simp [aset, alookup, h]
      · simp [aset, alookup, h0, ih]

theorem mem_akeys_of_mem {a : Type} {d : List (String × a)} {k : String} {v : a}
    (h : (k, v) ∈ d) : k ∈ akeys d :=
  List.mem_map_of_mem Prod.fst h

theorem aset_eq_of_mem {a : Type} {d : List (String × a)} {k : String} {v : a}
    (hd : (akeys d).Nodup) (h : (k, v) ∈ d) : aset d k v = d := by
  induction d with
  | nil => cases h
  | cons p rest ih =>
      rcases p with ⟨k0, v0⟩
      simp only [akeys, List.map_cons, List.nodup_cons] at hd
      rcases List.mem_cons.1 h with heq | hmem
      · cases heq; simp [aset]
      · have hne : k0 ≠ k := by
          rintro rfl
          exact hd.1 (mem_akeys_of_mem hmem)
        simp [aset, hne, ih hd.2 hmem]

theorem dictUpdate_cons (d : Data) (k : String) (v : JVal) (u : Data) :
    dictUpdate d ((k, v) :: u) = dictUpdate (aset d k v) u := rfl

theorem alookup_dictUpdate_not_mem (d : Data) (u : Data) (k : String)
    (h : k ∉ akeys u) : alookup (dictUpdate d u) k = alookup d k := by
  induction u generalizing d with
  | nil => rfl
  | cons p rest ih =>
      rcases p with ⟨k0, v0⟩
      simp only [akeys, List.map_cons, List.mem_cons, not_or] at h
      rw [dictUpdate_cons, ih (aset d k0 v0) h.2, alookup_aset_ne d (fun he => h.1 he.symm)]

theorem alookup_dictUpdate_of_mem :
    ∀ (u : Data) (k : String) (v : JVal), (akeys u).Nodup → (k, v) ∈ u →
      ∀ d : Data, alookup (dictUpdate d u) k = some v := by
  intro u
  induction u with
  | nil => intro k v _ h _; cases h
  | cons p rest ih =>
      rcases p with ⟨k0, v0⟩
      intro k v hu h d
      simp only [akeys, List.map_cons, List.nodup_cons] at hu
      rcases List.mem_cons.1 h with heq | hmem
      · cases heq
        rw [dictUpdate_cons,
          alookup_dictUpdate_not_mem (aset d k0 v0) rest k0 hu.1, alookup_aset_self]
      · rw [dictUpdate_cons]
        exact ih k v hu.2 hmem (aset d k0 v0)

theorem dictUpdate_eq_of_sub (d : Data) (hd : (akeys d).Nodup) :
    ∀ u : Data, (∀ p ∈ u, p ∈ d) → dictUpdate d u = d := by
  intro u
  induction u with
  | nil => intro _; rfl
  | cons p rest ih =>
      intro hsub
      rcases p with ⟨k, v⟩
      rw [dictUpdate_cons, aset_eq_of_mem hd (hsub (k, v) (List.mem_cons_self _ _))]
      exact ih (fun q hq => hsub q (List.mem_cons_of_mem _ hq))

/-- Source: `d.update(d)` is the identity: merging a result identical to the current
mapping leaves it unchanged. -/
theorem dictUpdate_self (d : Data) (hd : (akeys d).Nodup) : dictUpdate d d = d :=
  dictUpdate_eq_of_sub d hd d (fun _ hp => hp)

theorem patternLoop_eq_any (l : List String) (s : String) :
    patternLoop l s = l.any (fun p => containsSub p s) := by
  induction l with
  | nil => rfl
  | cons p rest ih =>
      simp only [patternLoop, List.any_cons]
      by_cases h : containsSub p s <;> simp [h, ih]

theorem firstTrigger_eq_find (l : List (String × List String)) (rl : String) :
    firstTrigger l rl
      = (l.find? (fun p => p.2.any (fun k => containsSub (lowerStr k) rl))).map Prod.fst := by
  induction l with
  | nil => rfl
  | cons p rest ih =>
      rcases p with ⟨v, kws⟩
      simp only [firstTrigger, List.find?]
      by_cases h : kws.any (fun k => containsSub (lowerStr k) rl) <;> simp [h, ih]

theorem firstYesNo_eq_any (l : List String) (rl : String) :
    firstYesNo l rl
      = (if l.any (fun k => containsSub (lowerStr k) rl) then some "YES/NO" else none) := by
  induction l with
  | nil => rfl
  | cons k rest ih =>
      simp only [firstYesNo, List.any_cons]
      by_cases h : containsSub (lowerStr k) rl <;> simp [h, ih]

/-- C7. `detect_fallback` evaluates its rules in order, first true rule
winning: confidence provided and below 0.7; otherwise a fixed hand-off
phrasing occurring case-insensitively in the reply; otherwise the trimmed
reply being shorter than 20 characters; otherwise false.  Formally it agrees
with the spec-side ordered-rules classifier on every reply and every optional
confidence score. -/
theorem ite_chain_or (a b : Bool) (p : Prop) [Decidable p] :
    (if a then true else if b then true else if p then true else false)
      = (a || b || decide p) := by
  cases a <;> cases b <;> by_cases h : p <;> simp [h]

theorem detect_fallback_follows_spec_rules (reply : String) (confidence : Option ℚ) :
    detect_fallback reply confidence = is_fallback_spec reply confidence := by
  unfold detect_fallback is_fallback_spec
  rw [patternLoop_eq_any]
  rcases confidence with _ | c
  · exact ite_chain_or false _ _
  · exact ite_chain_or (decide (c < 7/10)) _ _

/-- C8 (amended). Specific keyword triggers are tried first, in the fixed
priority order of the `specific_triggers` list, and the first variable with a
case-insensitive substring match wins; only when none matches, the generic
`"YES/NO"` variable is returned — and only when one of the literal strings
`"Is...?"`, `"Are...?"`, … occurs case-insensitively as a substring of the
reply (a literal-token containment test, not an interrogative-prefix test).
Formally the resolver agrees with the spec-side `resolve_spec` policy. -/
theorem trigger_resolution_amended (response : String) :
    get_triggered_variable response = resolve_spec response := by
  unfold get_triggered_variable resolve_spec
  dsimp only
  rw [firstTrigger_eq_find, firstYesNo_eq_any]
  cases hf : specific_triggers.find?
      (fun p => p.2.any (fun k => containsSub (lowerStr k) (lowerStr response))) <;>
    simp [hf]

/-- C8 (counterexample). The reply `"Would you like to schedule a
tour?"` is a question beginning with the interrogative `"would"` and matches
no specific keyword trigger, so under the claim the resolver would return the
generic yes/no variable; the source returns no variable at all, because its
generic rule only fires on the literal substring `"would...?"`. -/
theorem trigger_yes_no_counterexample :
    isPrefB "would".data (lowerStr "Would you like to schedule a tour?").data = true
    ∧ containsSub "?" "Would you like to schedule a tour?" = true
    ∧ firstTrigger specific_triggers (lowerStr "Would you like to schedule a tour?") = none
    ∧ get_triggered_variable "Would you like to schedule a tour?" = none := by
  exact ⟨by decide, by decide, by decide, by decide⟩

/-- C5 (counterexample). The extractor merge is a plain `dict.update`:
supplying `null` for an existing key overwrites the previous value with
`null`, contradicting "overwritten only when the extractor supplies a
non-null value".  Concretely, merging `{"prospect_name": null}` into
`{"prospect_name": "Sam"}` through the source's CASE B replaces `"Sam"`. -/
theorem slot_merge_null_overwrite_counterexample :
    helper_process_turn (.msg [] (.parsed (.jobj [("prospect_name", .jnull)])))
      [("prospect_name", .jstr "Sam")]
      = .retPair [("prospect_name", .jnull)] false := rfl

/-- C5 (amended). The extractor result is merged with `dict.update`
semantics: an existing key's value is overwritten whenever the extractor
supplies that key — null values included — and merging a result identical to
the current slots leaves the mapping unchanged (same keys and values). -/
theorem slot_merge_overwrite_and_idempotence (d u : Data)
    (hd : (akeys d).Nodup) (hu : (akeys u).Nodup) :
    helper_process_turn (.msg [] (.parsed (.jobj u))) d = .retPair (dictUpdate d u) false
    ∧ (∀ k v, (k, v) ∈ u → lookupKey (dictUpdate d u) k = some v)
    ∧ dictUpdate d d = d :=
  ⟨rfl, fun k v hkv => alookup_dictUpdate_of_mem u k v hu hkv d, dictUpdate_self d hd⟩

theorem slot_merge_witness :
    lookupKey (dictUpdate [("prospect_name", JVal.jstr "Sam")] [("prospect_name", JVal.jnull)])
      "prospect_name" = some JVal.jnull
    ∧ dictUpdate [("prospect_name", JVal.jstr "Sam")] [("prospect_name", JVal.jstr "Sam")]
        = [("prospect_name", JVal.jstr "Sam")] := by
  have h := slot_merge_overwrite_and_idempotence [("prospect_name", JVal.jstr "Sam")]
    [("prospect_name", JVal.jnull)] (by decide) (by decide)
  exact ⟨h.2.1 "prospect_name" JVal.jnull (List.mem_singleton.mpr rfl), h.2.2⟩

/-- C4 (code evaluated at the failing inputs). With no usable tool call
and falsy message content, helper's `process_turn` falls off the end of the
function and returns Python `None` instead of a `(slots, done)` pair — the
caller's tuple unpacking then raises `TypeError`, so the turn dies with an
uncaught exception; with content that parses as JSON but is not an object
(e.g. `"42"`), `current_data.update(42)` raises `TypeError` out of
`process_turn` itself.  Both contradict the claim (and the function's own
docstring "Returns (current_data, done_flag)"). -/
theorem helper_malformed_output_eval :
    helper_process_turn (.msg [] .absent) [("prospect_name", .jstr "Sam")]
        = .retNone [("prospect_name", .jstr "Sam")]
    ∧ helper_process_turn (.msg [] (.parsed (.jnum 42))) [("prospect_name", .jstr "Sam")]
        = .raised [("prospect_name", .jstr "Sam")]
    ∧ (chat "c1" "hi" 1 (.msg [] .absent) false "" .absent none []).isErr = true :=
  ⟨rfl, rfl, rfl⟩

/-- C3 (counterexample). A raised `DialogueResponder` call propagates out
of Ava's `process_turn` — there is no handler — so the turn dies instead of
degrading to an empty reply: the claim's "returns a result with an empty
reply" is false on the raising outcome. -/
theorem responder_failure_counterexample :
    ava_process_turn "hello" [] false "" .araise = Except.error ()
    ∧ (chat "c2" "hello" 1 (.msg [] (.parsed (.jobj []))) false "" .araise none []).isErr
        = true :=
  ⟨rfl, rfl⟩

/-- C3 (amended). Ava's `process_turn` never mutates the session (it only
serializes `helper_data` into the prompt), and a malformed or absent reply
degrades to the empty string; but a raising `DialogueResponder` call
propagates uncaught, and the turn then fails with the session store exactly
as it was before the dialogue call — the caller can retry, yet no empty-reply
result is returned. -/
theorem responder_failure_amended (user_message : String) (helper_data : Data)
    (faqAnswer s : String) :
    ava_process_turn user_message helper_data false faqAnswer .araise = Except.error ()
    ∧ ava_process_turn user_message helper_data false faqAnswer .absent = Except.ok ""
    ∧ ava_process_turn user_message helper_data false faqAnswer (.plain s) = Except.ok s
    ∧ ∀ (cid : String) (store : Store) (d : Data),
        responderPhase cid user_message false faqAnswer .araise store d
          = .err (setStore store cid d) :=
  ⟨rfl, rfl, rfl, fun _ _ _ => rfl⟩

/-- C6. Whenever a completed, non-terminal `/chat` turn classifies the
generated reply as a fallback (the response envelope reports
`fallback = true`), the reply handed to the caller is exactly the fixed
hand-off message `FALLBACK_RESPONSE` (never the original reply text), the
session records `kb_pending = userMessage`, and `fallback_triggered` is set
to `true` on the session. -/
theorem fallback_substitution (conversation_id user_message : String) (t : ℤ)
    (hm : HelperMsg) (is_faq : Bool) (faqAnswer : String) (avaO : AvaOutcome)
    (intentRes : Option String) (store st' : Store) (resp : ChatResp)
    (h : chat conversation_id user_message t hm is_faq faqAnswer avaO intentRes store
          = .ok st' resp)
    (hfb : resp.fallback = true) :
    resp.reply = FALLBACK_RESPONSE
    ∧ resp.kb_pending = some user_message
    ∧ ∃ d', lookupStore st' conversation_id = some d'
        ∧ lookupKey d' "fallback_triggered" = some (.jbool true)
        ∧ lookupKey d' "kb_pending" = some (.jstr user_message) := by
  unfold chat at h
  dsimp only at h
  split at h
  · simp at h
  · rename_i data2 hreset
    unfold chatCont at h
    split at h
    · simp at h
    · simp at h
    · rename_i data3 done
      split at h
      · simp at h
      · rename_i data5 happend
        split at h
        · unfold doneResponse at h
          injection h with h1 h2
          subst h2
          simp at hfb
        · unfold responderPhase at h
          dsimp only at h
          split at h
          · simp at h
          · rename_i reply0 hava
            split at h
            · simp at h
            · rename_i data6 hattach
              injection h with h1 h2
              subst h1
              subst h2
              dsimp only at hfb ⊢
              simp only [if_pos hfb]
              refine ⟨trivial, trivial,
                aset (aset data6 "fallback_triggered" (JVal.jbool true)) "kb_pending"
                  (JVal.jstr user_message), ?_, ?_, ?_⟩
              · exact alookup_aset_self store conversation_id _
              · show alookup (aset (aset data6 "fallback_triggered" (JVal.jbool true))
                  "kb_pending" (JVal.jstr user_message)) "fallback_triggered"
                  = some (JVal.jbool true)
                rw [alookup_aset_ne (aset data6 "fallback_triggered" (JVal.jbool true))
                  (show ("kb_pending" : String) ≠ "fallback_triggered" by decide)
                  (JVal.jstr user_message)]
                exact alookup_aset_self data6 "fallback_triggered" (JVal.jbool true)
              · exact alookup_aset_self (aset data6 "fallback_triggered" (JVal.jbool true))
                  "kb_pending" (JVal.jstr user_message)

theorem fallback_substitution_witness :
    ∃ st' resp,
      chat "c3" "Hi, I need a 2BR" 1 (.msg [] (.parsed (.jobj []))) false ""
          (.plain "not sure") none [] = .ok st' resp
      ∧ resp.reply = FALLBACK_RESPONSE
      ∧ resp.kb_pending = some "Hi, I need a 2BR"
      ∧ ∃ d', lookupStore st' "c3" = some d'
          ∧ lookupKey d' "fallback_triggered" = some (.jbool true)
          ∧ lookupKey d' "kb_pending" = some (.jstr "Hi, I need a 2BR") := by
  refine ⟨_, _, rfl, ?_⟩
  exact fallback_substitution "c3" "Hi, I need a 2BR" 1 (.msg [] (.parsed (.jobj []))) false ""
    (.plain "not sure") none [] _ _ rfl (by decide)

theorem alookup_isSome_of_mem_akeys {a : Type} :
    ∀ {d : List (String × a)} {k : String}, k ∈ akeys d → (alookup d k).isSome = true := by
  intro d
  induction d with
  | nil => intro k h; cases h
  | cons p rest ih =>
      rcases p with ⟨k0, v0⟩
      intro k h
      rcases List.mem_cons.1 h with rfl | hmem
      · simp [alookup]
      · by_cases h0 : k0 = k
        · simp [alookup, h0]
        · simp only [alookup, if_neg h0]
          exact ih hmem

theorem not_mem_akeys_of_hasKey_false {d : Data} {k : String} (h : hasKey d k = false) :
    k ∉ akeys d := by
  intro hmem
  have := alookup_isSome_of_mem_akeys hmem
  unfold hasKey at h
  rw [h] at this
  cases this

theorem resetSummaryFlag_preserves {t : ℤ} {d1 d2 : Data}
    (h : resetSummaryFlag t d1 = some d2) {k : String} (hk : k ≠ "summary_generated") :
    alookup d2 k = alookup d1 k := by
  unfold resetSummaryFlag at h
  split at h
  · split at h
    · cases h
    · rename_i g hg
      injection h with h
      subst h
      split
      · exact alookup_aset_ne d1 (fun he => hk he.symm) _
      · rfl
  · injection h with h
    subst h
    rfl

theorem resetSummaryFlag_invariant {t : ℤ} {d1 d2 : Data}
    (h : resetSummaryFlag t d1 = some d2)
    (hsg : truthy (getD d2 "summary_generated" (.jbool false)) = true) :
    d2 = d1 ∧ ∃ g : ℤ, asNum (getD d1 "summary_generated_at" (.jnum 0)) = some g ∧ t ≤ g := by
  unfold resetSummaryFlag at h
  split at h
  · rename_i htr
    split at h
    · cases h
    · rename_i g hg
      injection h with h
      subst h
      split at hsg
      · rename_i hlt
        rw [show getD (aset d1 "summary_generated" (.jbool false)) "summary_generated"
            (.jbool false) = .jbool false from by
          unfold getD lookupKey
          rw [alookup_aset_self d1 "summary_generated" (JVal.jbool false)]
          rfl] at hsg
        cases hsg
      · rename_i hge
        exact ⟨if_neg hge, g, hg, le_of_not_lt hge⟩
  · rename_i htr
    injection h with h
    subst h
    exact absurd hsg (by simp [htr])

theorem resetSummaryFlag_clears {t : ℤ} {d1 : Data} {g : ℤ}
    (hsg : truthy (getD d1 "summary_generated" (.jbool false)) = true)
    (hga : asNum (getD d1 "summary_generated_at" (.jnum 0)) = some g)
    (hlt : g < t) :
    resetSummaryFlag t d1 = some (aset d1 "summary_generated" (.jbool false)) := by
  unfold resetSummaryFlag
  rw [if_pos hsg, hga]
  simp [hlt]

theorem not_of_bnot_decide {p : Prop} [Decidable p] (h : (!decide p) = true) : ¬ p := by
  rcases Decidable.em p with hp | hn
  · rw [decide_eq_true hp] at h
    exact Bool.noConfusion h
  · exact hn

theorem updSeq_avoids {k : String} :
    ∀ (elems : List JVal), k ∉ updKeysSeq elems → ∀ d : Data,
      alookup (updOut (updSeq d elems)) k = alookup d k := by
  intro elems
  induction elems with
  | nil => intro _ d; rfl
  | cons e rest ih =>
      intro hk d
      cases hp : updPair e with
      | none =>
          simp only [updSeq, hp]
          rfl
      | some o =>
          cases o with
          | none =>
              have hk2 : k ∉ updKeysSeq rest := by
                simpa only [updKeysSeq, hp] using hk
              simp only [updSeq, hp]
              exact ih hk2 d
          | some q =>
              rcases q with ⟨k0, v0⟩
              rw [show updKeysSeq (e :: rest) = k0 :: updKeysSeq rest from by
                simp only [updKeysSeq, hp]] at hk
              simp only [List.mem_cons, not_or] at hk
              simp only [updSeq, hp]
              rw [ih hk.2 (setKey d k0 v0)]
              exact alookup_aset_ne d (fun he => hk.1 he.symm) v0

theorem dictUpdateJ_avoids {v : JVal} {k : String} (hk : k ∉ updKeys v) (d : Data) :
    alookup (updOut (dictUpdateJ d v)) k = alookup d k := by
  cases v with
  | jobj kvs =>
      exact alookup_dictUpdate_not_mem d kvs k (by simpa only [updKeys] using hk)
  | jarr elems =>
      exact updSeq_avoids elems (by simpa only [updKeys] using hk) d
  | jstr s =>
      simp only [dictUpdateJ]
      split <;> rfl
  | jnull => rfl
  | jbool b => rfl
  | jnum n => rfl

theorem tryToolCall_avoids {c : ToolCall} {k : String} (hc : callAvoidsKey c k = true)
    (d : Data) : alookup (tcOut (tryToolCall d c)) k = alookup d k := by
  obtain ⟨name, args, wr⟩ := c
  unfold callAvoidsKey at hc
  unfold tryToolCall
  dsimp only at hc ⊢
  split
  · rfl
  · cases args with
    | none => rfl
    | some v =>
        dsimp only at hc ⊢
        cases hrd : recordOf v with
        | none => rfl
        | some rd =>
            rw [hrd] at hc
            dsimp only at hc ⊢
            split
            · rfl
            · have hnk : k ∉ updKeys rd := not_of_bnot_decide hc
              have hdu := dictUpdateJ_avoids hnk d
              cases hv : dictUpdateJ d rd with
              | ok d2 =>
                  rw [hv] at hdu
                  exact hdu
              | error d2 =>
                  rw [hv] at hdu
                  exact hdu

theorem toolCallLoop_avoids {k : String} :
    ∀ (calls : List ToolCall), (∀ c ∈ calls, callAvoidsKey c k = true) → ∀ d : Data,
      alookup (tcOut (toolCallLoop d calls)) k = alookup d k := by
  intro calls
  induction calls with
  | nil => intro _ d; rfl
  | cons c rest ih =>
      intro hall d
      have hc := tryToolCall_avoids (hall c (List.mem_cons_self _ _)) d
      cases htc : tryToolCall d c with
      | inl d2 =>
          rw [htc] at hc
          simp only [toolCallLoop, htc]
          exact (ih (fun c2 hc2 => hall c2 (List.mem_cons_of_mem _ hc2)) d2).trans hc
      | inr r =>
          rw [htc] at hc
          simp only [toolCallLoop, htc]
          exact hc

theorem helperCaseB_avoids {content : ContentB} {k : String}
    (hc : contentAvoidsKey content k = true) (d : Data) :
    alookup (HRet.data (helperCaseB d content)) k = alookup d k := by
  cases content with
  | absent => rfl
  | parsed v =>
      have hnk : k ∉ updKeys v := not_of_bnot_decide hc
      have hdu := dictUpdateJ_avoids hnk d
      cases hv : dictUpdateJ d v with
      | ok d2 =>
          rw [hv] at hdu
          simp only [helperCaseB, hv]
          exact hdu
      | error d2 =>
          rw [hv] at hdu
          simp only [helperCaseB, hv]
          exact hdu
  | unparsable rx =>
      cases rx with
      | some kvs =>
          simp only [contentAvoidsKey] at hc
          exact alookup_dictUpdate_not_mem d kvs k
            (not_mem_akeys_of_hasKey_false (by simpa using hc))
      | none => rfl

theorem helper_avoids {m : HelperMsg} {k : String} (hmk : msgAvoidsKey m k = true)
    (d : Data) : alookup (HRet.data (helper_process_turn m d)) k = alookup d k := by
  cases m with
  | apiFail => rfl
  | msg tool_calls content =>
      unfold msgAvoidsKey at hmk
      rw [Bool.and_eq_true] at hmk
      have hloop := toolCallLoop_avoids tool_calls
        (fun c hc => (List.all_eq_true.1 hmk.1) c hc) d
      cases hl : toolCallLoop d tool_calls with
      | inl d2 =>
          rw [hl] at hloop
          simp only [helper_process_turn, hl]
          exact (helperCaseB_avoids hmk.2 d2).trans hloop
      | inr r =>
          rcases r with ⟨rd, rdn⟩
          rw [hl] at hloop
          simp only [helper_process_turn, hl]
          exact hloop

theorem ensureHistory_avoids (d : Data) {k : String} (hk : k ≠ "history") :
    alookup (ensureHistory d) k = alookup d k := by
  unfold ensureHistory
  split
  · rfl
  · exact alookup_aset_ne d (fun he => hk he.symm) _

theorem appendUserTurn_avoids {um : String} {d d5 : Data}
    (h : appendUserTurn um d = some d5) {k : String} (hk : k ≠ "history") :
    alookup d5 k = alookup d k := by
  unfold appendUserTurn at h
  split at h
  · injection h with h
    subst h
    rw [alookup_aset_ne _ (fun he => hk he.symm)]
    exact ensureHistory_avoids d hk
  · cases h

theorem attachAva_avoids {d : Data} {reply : String} {d6 : Data}
    (h : attachAva d reply = some d6) {k : String} (hk : k ≠ "history") :
    alookup d6 k = alookup d k := by
  unfold attachAva at h
  split at h
  · split at h
    · injection h with h
      subst h
      exact alookup_aset_ne d (fun he => hk he.symm) _
    · cases h
  · cases h

theorem chatCont_preserves_key (conversation_id user_message : String) (hm : HelperMsg)
    (is_faq : Bool) (faqAnswer : String) (avaO : AvaOutcome) (intentRes : Option String)
    (store : Store) (data2 : Data) (k : String)
    (hk1 : k ≠ "history") (hk2 : k ≠ "fallback_triggered") (hk3 : k ≠ "kb_pending")
    (havoid : msgAvoidsKey hm k = true) :
    ∃ d', lookupStore ((chatCont conversation_id user_message hm is_faq faqAnswer avaO
        intentRes store data2).store) conversation_id = some d'
      ∧ alookup d' k = alookup data2 k := by
  unfold chatCont
  cases hh : helper_process_turn hm data2 with
  | retNone d3 =>
      have h3 : alookup d3 k = alookup data2 k := by
        have hx := helper_avoids havoid data2
        rw [hh] at hx
        exact hx
      exact ⟨d3, alookup_aset_self store conversation_id d3, h3⟩
  | raised d3 =>
      have h3 : alookup d3 k = alookup data2 k := by
        have hx := helper_avoids havoid data2
        rw [hh] at hx
        exact hx
      exact ⟨d3, alookup_aset_self store conversation_id d3, h3⟩
  | retPair data3 dn =>
      have h3 : alookup data3 k = alookup data2 k := by
        have hx := helper_avoids havoid data2
        rw [hh] at hx
        exact hx
      dsimp only
      cases ha : appendUserTurn user_message data3 with
      | none =>
          exact ⟨ensureHistory data3, alookup_aset_self store conversation_id _,
            (ensureHistory_avoids data3 hk1).trans h3⟩
      | some data5 =>
          have h5 : alookup data5 k = alookup data2 k :=
            (appendUserTurn_avoids ha hk1).trans h3
          dsimp only
          cases dn with
          | true =>
              rw [if_pos rfl]
              exact ⟨data5, alookup_aset_self store conversation_id data5, h5⟩
          | false =>
              rw [if_neg Bool.false_ne_true]
              unfold responderPhase
              cases hava : ava_process_turn user_message data5 is_faq faqAnswer avaO with
              | error e =>
                  exact ⟨data5, alookup_aset_self store conversation_id data5, h5⟩
              | ok reply0 =>
                  dsimp only
                  cases hfb : detect_fallback reply0 none with
                  | false =>
                      cases hat : attachAva data5
                          (if false = true then FALLBACK_RESPONSE else reply0) with
                      | none =>
                          exact ⟨data5, alookup_aset_self store conversation_id data5, h5⟩
                      | some data6 =>
                          have h6 : alookup data6 k = alookup data2 k :=
                            (attachAva_avoids hat hk1).trans h5
                          exact ⟨data6, alookup_aset_self store conversation_id data6, h6⟩
                  | true =>
                      cases hat : attachAva data5
                          (if true = true then FALLBACK_RESPONSE else reply0) with
                      | none =>
                          exact ⟨data5, alookup_aset_self store conversation_id data5, h5⟩
                      | some data6 =>
                          have h6 : alookup data6 k = alookup data2 k :=
                            (attachAva_avoids hat hk1).trans h5
                          refine ⟨aset (aset data6 "fallback_triggered" (JVal.jbool true))
                            "kb_pending" (JVal.jstr user_message),
                            alookup_aset_self store conversation_id _, ?_⟩
                          rw [alookup_aset_ne _ (fun he => hk3 he.symm),
                            alookup_aset_ne _ (fun he => hk2 he.symm)]
                          exact h6

theorem streamTail_preserves_key (conversation_id full : String) (fb : Bool)
    (kbp : Option String) (store : Store) (d6 : Data) (k : String)
    (hk1 : k ≠ "history") (hk4 : k ≠ "pq_completed") :
    ∃ d', lookupStore ((streamTail conversation_id full fb kbp store d6).store)
        conversation_id = some d'
      ∧ alookup d' k = alookup d6 k := by
  unfold streamTail
  dsimp only
  have h7 : alookup (if containsSub "ve been pre-qualified" (lowerStr full)
      then setKey d6 "pq_completed" (.jbool true) else d6) k = alookup d6 k := by
    split
    · exact alookup_aset_ne d6 (fun he => hk4 he.symm) _
    · rfl
  cases hat : attachAva (if containsSub "ve been pre-qualified" (lowerStr full)
      then setKey d6 "pq_completed" (.jbool true) else d6) full with
  | none => exact ⟨_, alookup_aset_self store conversation_id _, h7⟩
  | some data8 =>
      exact ⟨data8, alookup_aset_self store conversation_id data8,
        (attachAva_avoids hat hk1).trans h7⟩

theorem streamCont_preserves_key (conversation_id user_message : String) (hm : HelperMsg)
    (is_faq : Bool) (faqAnswer : String) (so : StreamLLM) (intentRes : Option String)
    (store : Store) (data2 : Data) (k : String)
    (hk1 : k ≠ "history") (hk2 : k ≠ "fallback_triggered") (hk3 : k ≠ "kb_pending")
    (hk4 : k ≠ "pq_completed") (havoid : msgAvoidsKey hm k = true) :
    ∃ d', lookupStore ((streamCont conversation_id user_message hm is_faq faqAnswer so
        intentRes store data2).store) conversation_id = some d'
      ∧ alookup d' k = alookup data2 k := by
  unfold streamCont
  cases hh : helper_process_turn hm data2 with
  | retNone d3 =>
      have h3 : alookup d3 k = alookup data2 k := by
        have hx := helper_avoids havoid data2
        rw [hh] at hx
        exact hx
      exact ⟨d3, alookup_aset_self store conversation_id d3, h3⟩
  | raised d3 =>
      have h3 : alookup d3 k = alookup data2 k := by
        have hx := helper_avoids havoid data2
        rw [hh] at hx
        exact hx
      exact ⟨d3, alookup_aset_self store conversation_id d3, h3⟩
  | retPair data3 dn =>
      have h3 : alookup data3 k = alookup data2 k := by
        have hx := helper_avoids havoid data2
        rw [hh] at hx
        exact hx
      dsimp only
      cases ha : appendUserTurn user_message data3 with
      | none =>
          exact ⟨ensureHistory data3, alookup_aset_self store conversation_id _,
            (ensureHistory_avoids data3 hk1).trans h3⟩
      | some data5 =>
          have h5 : alookup data5 k = alookup data2 k :=
            (appendUserTurn_avoids ha hk1).trans h3
          dsimp only
          cases dn with
          | true =>
              rw [if_pos rfl]
              exact ⟨data5, alookup_aset_self store conversation_id data5, h5⟩
          | false =>
              rw [if_neg Bool.false_ne_true]
              cases is_faq with
              | true =>
                  rw [if_pos rfl]
                  unfold streamFaqPhase
                  dsimp only
                  have h6 : alookup (if detect_fallback faqAnswer none then
                      setKey (setKey data5 "fallback_triggered" (.jbool true))
                        "kb_pending" (.jstr user_message)
                      else data5) k = alookup data2 k := by
                    split
                    · rw [alookup_aset_ne _ (fun he => hk3 he.symm),
                        alookup_aset_ne _ (fun he => hk2 he.symm)]
                      exact h5
                    · exact h5
                  exact ⟨_, alookup_aset_self store conversation_id _, h6⟩
              | false =>
                  rw [if_neg Bool.false_ne_true]
                  unfold streamResponderPhase
                  cases so with
                  | sraise =>
                      exact ⟨data5, alookup_aset_self store conversation_id data5, h5⟩
                  | streamed full0 =>
                      dsimp only
                      have h6 : alookup (if detect_fallback full0 none then
                          setKey (setKey data5 "fallback_triggered" (.jbool true))
                            "kb_pending" (.jstr user_message)
                          else data5) k = alookup data2 k := by
                        split
                        · rw [alookup_aset_ne _ (fun he => hk3 he.symm),
                            alookup_aset_ne _ (fun he => hk2 he.symm)]
                          exact h5
                        · exact h5
                      obtain ⟨d', hd', he⟩ := streamTail_preserves_key conversation_id
                        (if detect_fallback full0 none then FALLBACK_RESPONSE else full0)
                        (detect_fallback full0 none)
                        (if detect_fallback full0 none then some user_message else none)
                        store
                        (if detect_fallback full0 none then
                          setKey (setKey data5 "fallback_triggered" (.jbool true))
                            "kb_pending" (.jstr user_message)
                        else data5) k hk1 hk4
                      exact ⟨d', hd', he.trans h6⟩

theorem resetSummaryFlag_none {t : ℤ} {d1 : Data} (h : resetSummaryFlag t d1 = none) :
    asNum (getD d1 "summary_generated_at" (.jnum 0)) = none := by
  unfold resetSummaryFlag at h
  split at h
  · cases hasn : asNum (getD d1 "summary_generated_at" (.jnum 0)) with
    | none => rfl
    | some gg =>
        rw [hasn] at h
        exact Option.noConfusion h
  · exact Option.noConfusion h

theorem getD_eq_of_alookup {d : Data} {k : String} {x : JVal} (v : JVal)
    (h : alookup d k = some x) : getD d k v = x := by
  unfold getD lookupKey
  rw [h]
  rfl

theorem getD_congr {d1 d2 : Data} {k : String} (h : alookup d1 k = alookup d2 k) (v : JVal) :
    getD d1 k v = getD d2 k v := by
  unfold getD lookupKey
  rw [h]

theorem msgAvoidsFlags_spec {m : HelperMsg} (h : msgAvoidsFlags m = true) :
    msgAvoidsKey m "summary_generated" = true
    ∧ msgAvoidsKey m "summary_generated_at" = true
    ∧ msgAvoidsKey m "last_activity_time" = true := by
  unfold msgAvoidsFlags at h
  rw [Bool.and_eq_true, Bool.and_eq_true] at h
  exact ⟨h.1.1, h.1.2, h.2⟩

/-- C2 (amended). Provided the slot-extractor result merged into the flat
session mapping does not itself supply the status keys `summary_generated`,
`summary_generated_at` or `last_activity_time` — through any `dict.update`
payload form, dict payloads and pair-sequence payloads alike, as judged by
`msgAvoidsFlags` over `updKeys`: (1) a turn arriving at time `t` on a
finalized session whose `summary_generated_at` is strictly before `t`
leaves, at the end of the turn, `last_activity_time = t` and
`summary_generated` cleared to false, on the `/chat` endpoint and on the
`/chat/stream` endpoint alike; and (2) at the end of any turn of either
endpoint, no session state has a truthy `summary_generated` together with a
numeric `last_activity_time` strictly after a numeric
`summary_generated_at`. -/
theorem turn_summary_flag_amended :
    (∀ (conversation_id user_message : String) (t : ℤ) (hm : HelperMsg) (is_faq : Bool)
        (faqAnswer : String) (avaO : AvaOutcome) (so : StreamLLM) (intentRes : Option String)
        (store : Store) (d : Data) (g : ℤ),
        lookupStore store conversation_id = some d →
        truthy (getD d "summary_generated" (.jbool false)) = true →
        asNum (getD d "summary_generated_at" (.jnum 0)) = some g →
        g < t →
        msgAvoidsFlags hm = true →
        (∃ d', lookupStore (chat conversation_id user_message t hm is_faq faqAnswer avaO
            intentRes store).store conversation_id = some d'
          ∧ alookup d' "last_activity_time" = some (.jnum t)
          ∧ alookup d' "summary_generated" = some (.jbool false))
        ∧ (∃ e', lookupStore (chat_stream conversation_id user_message t hm is_faq faqAnswer
            so intentRes store).store conversation_id = some e'
          ∧ alookup e' "last_activity_time" = some (.jnum t)
          ∧ alookup e' "summary_generated" = some (.jbool false)))
    ∧ (∀ (conversation_id user_message : String) (t : ℤ) (hm : HelperMsg) (is_faq : Bool)
        (faqAnswer : String) (avaO : AvaOutcome) (so : StreamLLM) (intentRes : Option String)
        (store : Store),
        msgAvoidsFlags hm = true →
        (∀ d', lookupStore (chat conversation_id user_message t hm is_faq faqAnswer avaO
            intentRes store).store conversation_id = some d' →
          truthy (getD d' "summary_generated" (.jbool false)) = true →
          ∀ g l : ℤ, asNum (getD d' "summary_generated_at" (.jnum 0)) = some g →
            asNum (getD d' "last_activity_time" (.jnum 0)) = some l →
            ¬ g < l)
        ∧ (∀ e', lookupStore (chat_stream conversation_id user_message t hm is_faq faqAnswer
            so intentRes store).store conversation_id = some e' →
          truthy (getD e' "summary_generated" (.jbool false)) = true →
          ∀ g l : ℤ, asNum (getD e' "summary_generated_at" (.jnum 0)) = some g →
            asNum (getD e' "last_activity_time" (.jnum 0)) = some l →
            ¬ g < l)) := by
  constructor
  · intro cid um t hm is_faq fa avaO so ir store d g hlook hsg hga hlt havoid
    obtain ⟨hav1, hav2, hav3⟩ := msgAvoidsFlags_spec havoid
    have hne1 : ("last_activity_time" : String) ≠ "summary_generated" := by decide
    have hne2 : ("last_activity_time" : String) ≠ "summary_generated_at" := by decide
    have e2 : alookup (aset d "last_activity_time" (.jnum t)) "summary_generated"
        = alookup d "summary_generated" := alookup_aset_ne d hne1 _
    have e3 : alookup (aset d "last_activity_time" (.jnum t)) "summary_generated_at"
        = alookup d "summary_generated_at" := alookup_aset_ne d hne2 _
    have hsg1 : truthy (getD (aset d "last_activity_time" (.jnum t)) "summary_generated"
        (.jbool false)) = true := by rw [getD_congr e2]; exact hsg
    have hga1 : asNum (getD (aset d "last_activity_time" (.jnum t)) "summary_generated_at"
        (.jnum 0)) = some g := by rw [getD_congr e3]; exact hga
    constructor
    · unfold chat
      dsimp only
      rw [hlook]
      dsimp only [Option.getD]
      rw [resetSummaryFlag_clears hsg1 hga1 hlt]
      dsimp only
      obtain ⟨dA, hA, eA⟩ := chatCont_preserves_key cid um hm is_faq fa avaO ir store
        (aset (aset d "last_activity_time" (.jnum t)) "summary_generated" (.jbool false))
        "last_activity_time" (by decide) (by decide) (by decide) hav3
      obtain ⟨dB, hB, eB⟩ := chatCont_preserves_key cid um hm is_faq fa avaO ir store
        (aset (aset d "last_activity_time" (.jnum t)) "summary_generated" (.jbool false))
        "summary_generated" (by decide) (by decide) (by decide) hav1
      rw [hA] at hB
      have hAB : dA = dB := Option.some.inj hB
      refine ⟨dA, hA, ?_, ?_⟩
      · rw [eA, alookup_aset_ne _
          (by decide : ("summary_generated" : String) ≠ "last_activity_time"),
          alookup_aset_self]
      · rw [hAB, eB, alookup_aset_self]
    · unfold chat_stream
      dsimp only
      rw [hlook]
      dsimp only [Option.getD]
      rw [resetSummaryFlag_clears hsg1 hga1 hlt]
      dsimp only
      obtain ⟨dA, hA, eA⟩ := streamCont_preserves_key cid um hm is_faq fa so ir store
        (aset (aset d "last_activity_time" (.jnum t)) "summary_generated" (.jbool false))
        "last_activity_time" (by decide) (by decide) (by decide) (by decide) hav3
      obtain ⟨dB, hB, eB⟩ := streamCont_preserves_key cid um hm is_faq fa so ir store
        (aset (aset d "last_activity_time" (.jnum t)) "summary_generated" (.jbool false))
        "summary_generated" (by decide) (by decide) (by decide) (by decide) hav1
      rw [hA] at hB
      have hAB : dA = dB := Option.some.inj hB
      refine ⟨dA, hA, ?_, ?_⟩
      · rw [eA, alookup_aset_ne _
          (by decide : ("summary_generated" : String) ≠ "last_activity_time"),
          alookup_aset_self]
      · rw [hAB, eB, alookup_aset_self]
  · intro cid um t hm is_faq fa avaO so ir store havoid
    obtain ⟨hav1, hav2, hav3⟩ := msgAvoidsFlags_spec havoid
    constructor
    · intro d' hd' hsg g l hg hl
      unfold chat at hd'
      dsimp only at hd'
      revert hd'
      cases hres : resetSummaryFlag t
          (aset ((lookupStore store cid).getD []) "last_activity_time" (.jnum t)) with
      | none =>
          intro hd'
          dsimp only [TurnOutcome.store] at hd'
          have hd1 : d'
              = aset ((lookupStore store cid).getD []) "last_activity_time" (.jnum t) :=
            Option.some.inj (hd'.symm.trans (alookup_aset_self store cid _))
          subst hd1
          rw [resetSummaryFlag_none hres] at hg
          exact Option.noConfusion hg
      | some data2 =>
          intro hd'
          dsimp only at hd'
          obtain ⟨dA, hA, eA⟩ := chatCont_preserves_key cid um hm is_faq fa avaO ir store
            data2 "summary_generated" (by decide) (by decide) (by decide) hav1
          obtain ⟨dB, hB, eB⟩ := chatCont_preserves_key cid um hm is_faq fa avaO ir store
            data2 "summary_generated_at" (by decide) (by decide) (by decide) hav2
          obtain ⟨dC, hC, eC⟩ := chatCont_preserves_key cid um hm is_faq fa avaO ir store
            data2 "last_activity_time" (by decide) (by decide) (by decide) hav3
          have hdA : dA = d' := Option.some.inj (hA.symm.trans hd')
          have hdB : dB = d' := Option.some.inj (hB.symm.trans hd')
          have hdC : dC = d' := Option.some.inj (hC.symm.trans hd')
          rw [hdA] at eA
          rw [hdB] at eB
          rw [hdC] at eC
          have hsg2 : truthy (getD data2 "summary_generated" (.jbool false)) = true := by
            rw [← getD_congr eA]
            exact hsg
          obtain ⟨hd21, g0, hg0, htg0⟩ := resetSummaryFlag_invariant hres hsg2
          have hgg : asNum (getD data2 "summary_generated_at" (.jnum 0)) = some g := by
            rw [← getD_congr eB]
            exact hg
          have hgg1 : asNum (getD (aset ((lookupStore store cid).getD [])
              "last_activity_time" (.jnum t)) "summary_generated_at" (.jnum 0)) = some g := by
            rw [← hd21]
            exact hgg
          have hgeq : g = g0 := Option.some.inj (hgg1.symm.trans hg0)
          have hlast : alookup d' "last_activity_time" = some (.jnum t) := by
            rw [eC, hd21, alookup_aset_self]
          have hlt2 : asNum (getD d' "last_activity_time" (.jnum 0)) = some t := by
            rw [getD_eq_of_alookup _ hlast]
            rfl
          have hleq : l = t := Option.some.inj (hl.symm.trans hlt2)
          rw [← hgeq] at htg0
          rw [hleq]
          exact not_lt.mpr htg0
    · intro e' he' hsg g l hg hl
      unfold chat_stream at he'
      dsimp only at he'
      revert he'
      cases hres : resetSummaryFlag t
          (aset ((lookupStore store cid).getD []) "last_activity_time" (.jnum t)) with
      | none =>
          intro he'
          dsimp only [StreamTurn.store] at he'
          have hd1 : e'
              = aset ((lookupStore store cid).getD []) "last_activity_time" (.jnum t) :=
            Option.some.inj (he'.symm.trans (alookup_aset_self store cid _))
          subst hd1
          rw [resetSummaryFlag_none hres] at hg
          exact Option.noConfusion hg
      | some data2 =>
          intro he'
          dsimp only at he'
          obtain ⟨dA, hA, eA⟩ := streamCont_preserves_key cid um hm is_faq fa so ir store
            data2 "summary_generated" (by decide) (by decide) (by decide) (by decide) hav1
          obtain ⟨dB, hB, eB⟩ := streamCont_preserves_key cid um hm is_faq fa so ir store
            data2 "summary_generated_at" (by decide) (by decide) (by decide) (by decide) hav2
          obtain ⟨dC, hC, eC⟩ := streamCont_preserves_key cid um hm is_faq fa so ir store
            data2 "last_activity_time" (by decide) (by decide) (by decide) (by decide) hav3
          have hdA : dA = e' := Option.some.inj (hA.symm.trans he')
          have hdB : dB = e' := Option.some.inj (hB.symm.trans he')
          have hdC : dC = e' := Option.some.inj (hC.symm.trans he')
          rw [hdA] at eA
          rw [hdB] at eB
          rw [hdC] at eC
          have hsg2 : truthy (getD data2 "summary_generated" (.jbool false)) = true := by
            rw [← getD_congr eA]
            exact hsg
          obtain ⟨hd21, g0, hg0, htg0⟩ := resetSummaryFlag_invariant hres hsg2
          have hgg : asNum (getD data2 "summary_generated_at" (.jnum 0)) = some g := by
            rw [← getD_congr eB]
            exact hg
          have hgg1 : asNum (getD (aset ((lookupStore store cid).getD [])
              "last_activity_time" (.jnum t)) "summary_generated_at" (.jnum 0)) = some g := by
            rw [← hd21]
            exact hgg
          have hgeq : g = g0 := Option.some.inj (hgg1.symm.trans hg0)
          have hlast : alookup e' "last_activity_time" = some (.jnum t) := by
            rw [eC, hd21, alookup_aset_self]
          have hlt2 : asNum (getD e' "last_activity_time" (.jnum 0)) = some t := by
            rw [getD_eq_of_alookup _ hlast]
            rfl
          have hleq : l = t := Option.some.inj (hl.symm.trans hlt2)
          rw [← hgeq] at htg0
          rw [hleq]
          exact not_lt.mpr htg0

/-- C2 (counterexample). The extractor merge writes into the same flat
session dictionary that holds the status flags, so an extractor output
containing `"summary_generated": true` re-sets the flag after the turn's
reset step cleared it: the turn below ends in a completed state whose
`summary_generated` is truthy while `last_activity_time` (5) is strictly
after `summary_generated_at` (0) — the claimed end-of-turn invariant fails,
and the finalized session was not left cleared. -/
theorem summary_flag_clobber_counterexample :
    ∃ st' resp d',
      chat "c4" "hi" 5 (.msg [] (.parsed (.jobj [("summary_generated", .jbool true)])))
          false "" (.plain "What bedroom size are you looking for? [1 BR|2 BR|3 BR]") none
          [("c4", [("summary_generated", .jbool true), ("summary_generated_at", .jnum 0),
                   ("history", .jarr [])])]
        = .ok st' resp
      ∧ lookupStore st' "c4" = some d'
      ∧ truthy (getD d' "summary_generated" (.jbool false)) = true
      ∧ asNum (getD d' "summary_generated_at" (.jnum 0)) = some 0
      ∧ asNum (getD d' "last_activity_time" (.jnum 0)) = some 5
      ∧ ((0 : ℤ) < 5) :=
  ⟨_, _, _, rfl, rfl, by decide, by decide, by decide, by decide⟩

theorem turn_summary_flag_witness :
    (∃ d', lookupStore (chat "c5" "hello" 5 (.msg [] (.parsed (.jobj []))) false ""
        (.plain "What bedroom size are you looking for? [1 BR|2 BR|3 BR]") none
        [("c5", [("summary_generated", .jbool true), ("summary_generated_at", .jnum 0),
                 ("history", .jarr [])])]).store "c5" = some d'
      ∧ alookup d' "last_activity_time" = some (.jnum 5)
      ∧ alookup d' "summary_generated" = some (.jbool false))
    ∧ (∃ e', lookupStore (chat_stream "c5" "hello" 5 (.msg [] (.parsed (.jobj []))) false ""
        (.streamed "What bedroom size are you looking for? [1 BR|2 BR|3 BR]") none
        [("c5", [("summary_generated", .jbool true), ("summary_generated_at", .jnum 0),
                 ("history", .jarr [])])]).store "c5" = some e'
      ∧ alookup e' "last_activity_time" = some (.jnum 5)
      ∧ alookup e' "summary_generated" = some (.jbool false)) :=
  turn_summary_flag_amended.1 "c5" "hello" 5 (.msg [] (.parsed (.jobj []))) false ""
    (.plain "What bedroom size are you looking for? [1 BR|2 BR|3 BR]")
    (.streamed "What bedroom size are you looking for? [1 BR|2 BR|3 BR]") none
    [("c5", [("summary_generated", .jbool true), ("summary_generated_at", .jnum 0),
             ("history", .jarr [])])]
    [("summary_generated", .jbool true), ("summary_generated_at", .jnum 0),
     ("history", .jarr [])] 0 rfl (by decide) (by decide) (by decide) (by decide)

theorem alookup_eq_none_of_not_mem {a : Type} :
    ∀ {d : List (String × a)} {k : String}, k ∉ akeys d → alookup d k = none := by
  intro d
  induction d with
  | nil => intro k _; rfl
  | cons p rest ih =>
      rcases p with ⟨k0, v0⟩
      intro k h
      simp only [akeys, List.map_cons, List.mem_cons, not_or] at h
      have hne : k0 ≠ k := fun he => h.1 he.symm
      simp only [alookup, if_neg hne]
      exact ih h.2

theorem alookup_aerase_self {a : Type} :
    ∀ (d : List (String × a)) (k : String), (akeys d).Nodup →
      alookup (aerase d k) k = none := by
  intro d
  induction d with
  | nil => intro k _; rfl
  | cons p rest ih =>
      rcases p with ⟨k0, v0⟩
      intro k hnd
      simp only [akeys, List.map_cons, List.nodup_cons] at hnd
      by_cases h0 : k0 = k
      · subst h0
        simp only [aerase, if_pos rfl]
        exact alookup_eq_none_of_not_mem hnd.1
      · simp only [aerase, if_neg h0, alookup, if_neg h0]
        exact ih k hnd.2

/-- C10. Finalizing a session whose history is empty (falsy) deletes the
session from the store and returns: the result is independent of every
external-capability outcome (no text-generation call is consumed), no
summary is stored, and `summary_generated` is never set — the session is
evicted rather than summarized. -/
theorem finalize_empty_history_evicts (store : Store) (cid : String) (d : Data)
    (hlook : lookupStore store cid = some d)
    (hhist : truthy (getD d "history" (.jarr [])) = false) :
    (∀ o : FinalizeOracles, generate_and_send_summary o store cid = eraseStore store cid)
    ∧ ((akeys store).Nodup →
        ∀ o : FinalizeOracles,
          lookupStore (generate_and_send_summary o store cid) cid = none) := by
  have hmain : ∀ o : FinalizeOracles,
      generate_and_send_summary o store cid = eraseStore store cid := by
    intro o
    unfold generate_and_send_summary
    rw [hlook]
    dsimp only
    rw [if_pos (show (!truthy (getD d "history" (.jarr []))) = true by rw [hhist]; rfl)]
  refine ⟨hmain, ?_⟩
  intro hnd o
  rw [hmain o]
  exact alookup_aerase_self store cid hnd

theorem finalize_empty_history_witness :
    (∀ o : FinalizeOracles,
      generate_and_send_summary o [("c9", [("last_activity_time", JVal.jnum 3)])] "c9"
        = eraseStore [("c9", [("last_activity_time", JVal.jnum 3)])] "c9")
    ∧ ∀ o : FinalizeOracles,
        lookupStore (generate_and_send_summary o
          [("c9", [("last_activity_time", JVal.jnum 3)])] "c9") "c9" = none := by
  have h := finalize_empty_history_evicts [("c9", [("last_activity_time", JVal.jnum 3)])]
    "c9" [("last_activity_time", JVal.jnum 3)] rfl (by decide)
  exact ⟨h.1, h.2 (by decide)⟩
